import Mathlib

/-!
Verification of the decentralized-chat node core (src/decentralized-chat/src/main.rs).

The core is the event loop of `main`: it reacts to mDNS discovery events
(`Discovered` / `Expired`), inbound request/response messages of the
request-response behaviour, and ignores everything else.  We embed the loop
body as a step function over an explicit node state (local peer id, address
registry, message log), with the payloads modelled as a small JSON value type
mirroring `serde_json::Value` as used by the program.

Field-name correspondence with the design document: the document's
`ChatMessage {origin, text}` is the source's `ChatMessage {peer_id, message}`.
-/

namespace Chat

/-- Peer identifiers (`libp2p::PeerId`) are opaque; equality by value. -/
abbrev PeerId := String

/-- Network addresses (`libp2p::Multiaddr`) are opaque; equality by value. -/
abbrev Multiaddr := String

/-- JSON values, mirroring the fragment of `serde_json::Value` the program
exchanges: the payloads are objects with string fields; other shapes only
occur as malformed input. -/
inductive Json where
  | str : String → Json
  | num : Int → Json
  | obj : List (String × Json) → Json
  | null : Json

/-- `ChatMessage` from the source: `{peer_id: PeerId, message: String}`. -/
structure ChatMessage where
  peer_id : PeerId
  message : String
deriving DecidableEq, Repr

/-- Field lookup in a JSON object, as serde does when deserializing a struct
from a `serde_json::Value`. -/
def getField : List (String × Json) → String → Option Json
  | [], _ => none
  | (k, v) :: rest, key => if k = key then some v else getField rest key

/-- `serde_json::from_str::<ChatMessage>` on the rendered payload (line 130):
succeeds exactly on an object carrying string fields `peer_id` and
`message`. -/
def deserializeChatMessage : Json → Option ChatMessage
  | Json.obj fields =>
    match getField fields "peer_id", getField fields "message" with
    | some (Json.str p), some (Json.str m) => some ⟨p, m⟩
    | _, _ => none
  | _ => none

/-- `json!(&chat_message)` (lines 99, 145): serialize a `ChatMessage` into a
JSON object. -/
def serializeChatMessage (m : ChatMessage) : Json :=
  Json.obj [("peer_id", Json.str m.peer_id), ("message", Json.str m.message)]

/-- The Address Registry: the set of registered (peer, address) pairs, in
registration order.  Modelled from the spec: the implementation behind
`request_response.add_address` / `remove_address` lives in the libp2p
dependency, not in this repository; §4.2 specifies it as a pure in-memory
map holding at most one registration per (peer, address) pair. -/
abbrev Registry := List (PeerId × Multiaddr)

/-- Modelled from the spec: `register(peer, address) -> bool` behind
`request_response.add_address` (line 83), absent from src/.  Adds the pair if
absent and returns true exactly for a new registration. -/
def register (reg : Registry) (peer : PeerId) (addr : Multiaddr) :
    Registry × Bool :=
  if (peer, addr) ∈ reg then (reg, false) else (reg ++ [(peer, addr)], true)

/-- Modelled from the spec: `unregister(peer, address)` behind
`request_response.remove_address` (line 118), absent from src/.  Removes the
pair if present; no-op otherwise. -/
def unregister (reg : Registry) (peer : PeerId) (addr : Multiaddr) : Registry :=
  reg.filter (fun pa => pa ≠ (peer, addr))

/-- Modelled from the spec: `addresses_of(peer)` — the current known
addresses of a peer. -/
def addresses_of (reg : Registry) (peer : PeerId) : List Multiaddr :=
  (reg.filter (fun pa => pa.1 = peer)).map Prod.snd

/-- The node state owned by the event loop: the local peer id
(`swarm.local_peer_id()`), the address registry, and the message log
(`local_chat_messages`, line 33). -/
structure NodeState where
  localId : PeerId
  registry : Registry
  log : List ChatMessage
deriving DecidableEq, Repr

/-- Observable sends the loop body performs:
`request_response.send_request` (line 96) and
`request_response.send_response` (line 142). -/
inductive Output where
  | requestSent : PeerId → Json → Output
  | responseSent : PeerId → Json → Output

/-- Ways the loop body aborts the process: the `?` on line 130 propagates a
deserialization error out of `main`, and the `.expect` on line 148 panics
when sending the response fails. -/
inductive ProcErr where
  | deserializeFailed : ProcErr
  | responseSendPanic : ProcErr
deriving DecidableEq, Repr

/-- Events drawn from the swarm that the loop body matches on.  A
request-received event carries the transport-level sender, the payload
(`request.data`), and whether the external transport would accept the
response sent back on its correlated channel; the last component stands for
the environment-determined outcome of `send_response`. -/
inductive Event where
  | mdnsDiscovered : List (PeerId × Multiaddr) → Event
  | mdnsExpired : List (PeerId × Multiaddr) → Event
  | requestReceived : PeerId → Json → Bool → Event
  | responseReceived : PeerId → Json → Event
  | other : Event

/-- Body of the `for (peer, address) in peers` loop of the
`Mdns(Discovered)` arm (lines 78-103): add the address; when it is new,
send the greeting request
`ChatMessage { peer_id: local, message: "Hello I am <local>" }`. -/
def discoverOne (acc : NodeState × List Output) (pa : PeerId × Multiaddr) :
    NodeState × List Output :=
  let (reg, isNew) := register acc.1.registry pa.1 pa.2
  let s1 : NodeState := { acc.1 with registry := reg }
  if isNew then
    let m : ChatMessage := ⟨s1.localId, "Hello I am " ++ s1.localId⟩
    (s1, acc.2 ++ [Output.requestSent pa.1 (serializeChatMessage m)])
  else (s1, acc.2)

/-- The `Mdns(Discovered)` arm (lines 77-104). -/
def handleDiscovered (s : NodeState) (peers : List (PeerId × Multiaddr)) :
    NodeState × List Output :=
  peers.foldl discoverOne (s, [])

/-- Body of the `for (peer, address) in peers` loop of the `Mdns(Expired)`
arm (lines 106-119): remove the address. -/
def expireOne (s1 : NodeState) (pa : PeerId × Multiaddr) : NodeState :=
  { s1 with registry := unregister s1.registry pa.1 pa.2 }

/-- The `Mdns(Expired)` arm (lines 105-119). -/
def handleExpired (s : NodeState) (peers : List (PeerId × Multiaddr)) :
    NodeState :=
  peers.foldl expireOne s

/-- The request arm (lines 121-149): deserialize the payload — the `?`
aborts `main` on failure; on success push the message onto the log, then
send the response `ChatMessage { peer_id: local, message:
"Welcome <peer>!, I am <local>" }`, panicking (`.expect`) if the send
fails. -/
def handleRequest (s : NodeState) (peer : PeerId) (payload : Json)
    (sendOk : Bool) : Except ProcErr (NodeState × List Output) :=
  match deserializeChatMessage payload with
  | none => Except.error ProcErr.deserializeFailed
  | some m =>
    let s1 : NodeState := { s with log := s.log ++ [m] }
    let reply : ChatMessage :=
      ⟨s1.localId, "Welcome " ++ peer ++ "!, I am " ++ s1.localId⟩
    if sendOk then
      Except.ok (s1, [Output.responseSent peer (serializeChatMessage reply)])
    else Except.error ProcErr.responseSendPanic

/-- One iteration of the event loop (lines 75-160): dispatch on the event;
the final `_ => {}` arm ignores everything else. -/
def step (s : NodeState) (e : Event) :
    Except ProcErr (NodeState × List Output) :=
  match e with
  | Event.mdnsDiscovered peers => Except.ok (handleDiscovered s peers)
  | Event.mdnsExpired peers => Except.ok (handleExpired s peers, [])
  | Event.requestReceived peer payload sendOk =>
      handleRequest s peer payload sendOk
  | Event.responseReceived _ _ => Except.ok (s, [])
  | Event.other => Except.ok (s, [])

/-- The event loop over a finite prefix of the event stream: process events
in order, stopping with the error when an iteration aborts the process. -/
def run (s : NodeState) : List Event → Except ProcErr (NodeState × List Output)
  | [] => Except.ok (s, [])
  | e :: es =>
    match step s e with
    | Except.error err => Except.error err
    | Except.ok (s1, outs) =>
      match run s1 es with
      | Except.error err => Except.error err
      | Except.ok (s2, outs2) => Except.ok (s2, outs ++ outs2)

/-- The node state right after startup: empty registry, empty log. -/
def initState (id : PeerId) : NodeState :=
  { localId := id, registry := [], log := [] }

/-- A well-formed inbound request event carrying `m`, whose response send
succeeds: the shape produced by a peer running the greeting protocol. -/
def requestEvent (m : ChatMessage) : Event :=
  Event.requestReceived m.peer_id (serializeChatMessage m) true

/-! ### Helper lemmas -/

/-- Serialization round-trip: the serialized form of a `ChatMessage`
deserializes back to it. -/
theorem deserialize_serialize (m : ChatMessage) :
    deserializeChatMessage (serializeChatMessage m) = some m := by
  cases m
  simp [serializeChatMessage, deserializeChatMessage, getField]

/-- An address is in `addresses_of reg peer` iff the pair is registered. -/
theorem mem_addresses_of (reg : Registry) (peer : PeerId) (addr : Multiaddr) :
    addr ∈ addresses_of reg peer ↔ (peer, addr) ∈ reg := by
  simp only [addresses_of, List.mem_map, List.mem_filter, decide_eq_true_eq]
  constructor
  · rintro ⟨⟨p, a⟩, ⟨hmem, hp⟩, ha⟩
    subst hp
    subst ha
    exact hmem
  · intro h
    exact ⟨(peer, addr), ⟨h, rfl⟩, rfl⟩

/-- `addresses_of` distributes over registry concatenation. -/
theorem addresses_of_append (r1 r2 : Registry) (peer : PeerId) :
    addresses_of (r1 ++ r2) peer =
      addresses_of r1 peer ++ addresses_of r2 peer := by
  simp [addresses_of, List.filter_append]

/-- The discovery loop never touches the message log. -/
theorem foldl_discoverOne_log (peers : List (PeerId × Multiaddr)) :
    ∀ acc : NodeState × List Output,
      (peers.foldl discoverOne acc).1.log = acc.1.log := by
  induction peers with
  | nil => intro acc; rfl
  | cons pa rest ih =>
    intro acc
    rw [List.foldl_cons, ih]
    unfold discoverOne
    by_cases h : (register acc.1.registry pa.1 pa.2).2 <;> simp [h]

/-- The expiry loop never touches the message log. -/
theorem foldl_expireOne_log (peers : List (PeerId × Multiaddr)) :
    ∀ s : NodeState, (peers.foldl expireOne s).log = s.log := by
  induction peers with
  | nil => intro s; rfl
  | cons pa rest ih =>
    intro s
    rw [List.foldl_cons, ih]
    rfl

/-- Processing a well-formed request with a deliverable reply appends the
message and emits the welcome response. -/
theorem step_requestEvent (s : NodeState) (q : PeerId) (payload : Json)
    (m : ChatMessage) (h : deserializeChatMessage payload = some m) :
    step s (Event.requestReceived q payload true) =
      Except.ok ({ s with log := s.log ++ [m] },
        [Output.responseSent q (serializeChatMessage
          ⟨s.localId, "Welcome " ++ q ++ "!, I am " ++ s.localId⟩)]) := by
  simp [step, handleRequest, h]

/-- Running a list of well-formed request events appends exactly the
carried messages, in delivery order. -/
theorem run_requestEvents (msgs : List ChatMessage) :
    ∀ s : NodeState, ∃ outs,
      run s (msgs.map requestEvent) =
        Except.ok ({ s with log := s.log ++ msgs }, outs) := by
  induction msgs with
  | nil =>
    intro s
    exact ⟨[], by simp [run]⟩
  | cons m rest ih =>
    intro s
    obtain ⟨outs, hrun⟩ := ih { s with log := s.log ++ [m] }
    refine ⟨Output.responseSent m.peer_id (serializeChatMessage
      ⟨s.localId, "Welcome " ++ m.peer_id ++ "!, I am " ++ s.localId⟩) :: outs, ?_⟩
    rw [List.map_cons, run]
    simp only [requestEvent]
    rw [step_requestEvent s m.peer_id (serializeChatMessage m) m
        (deserialize_serialize m)]
    simp only [hrun]
    simp

/-! ### Claim theorems -/

/-- Claim C1, counterexample: a request whose payload does not deserialize
aborts the whole run — the following discovery event is never processed and
the loop ends with the propagated error.  This refutes "the Event Dispatcher
continues with the next event (the failure is reported, not fatal to the
process)": the `?` on line 130 returns the serde error out of `main`. -/
theorem malformed_request_not_continue_counterexample :
    run (initState "QmLocal")
        [Event.requestReceived "QmRemote" Json.null true,
         Event.mdnsDiscovered [("QmRemote", "/ip4/192.168.0.7/tcp/4001")]] =
      Except.error ProcErr.deserializeFailed := rfl

/-- Claim C1, amended: for every inbound request whose payload cannot be
deserialized into a `ChatMessage`, zero entries are appended to the Message
Log and zero responses are sent, but the deserialization error propagates
out of the event loop and terminates the process: no subsequent event is
processed. -/
theorem malformed_request_fatal (s : NodeState) (peer : PeerId)
    (payload : Json) (sendOk : Bool) (rest : List Event)
    (h : deserializeChatMessage payload = none) :
    run s (Event.requestReceived peer payload sendOk :: rest) =
      Except.error ProcErr.deserializeFailed := by
  rw [run]
  simp [step, handleRequest, h]

/-- Claim C1, witness for the amended theorem at a concrete input. -/
theorem malformed_request_fatal_witness :
    run (initState "QmA") [Event.requestReceived "QmB" (Json.num 7) true] =
      Except.error ProcErr.deserializeFailed :=
  malformed_request_fatal (initState "QmA") "QmB" (Json.num 7) true [] rfl

/-- Claim C2, counterexample: when sending the correlated response fails,
the run aborts with a panic and the following event is never processed.
This refutes "the Event Dispatcher does not crash and continues processing
subsequent events": the `.expect` on line 148 panics the process. -/
theorem response_send_failure_counterexample :
    run (initState "QmLocal")
        [Event.requestReceived "QmRemote"
           (serializeChatMessage ⟨"QmRemote", "Hello I am QmRemote"⟩) false,
         Event.other] =
      Except.error ProcErr.responseSendPanic := rfl

/-- Claim C2, amended: for every inbound request whose payload is
well-formed, if sending the correlated response fails, the handler panics
and the process crashes: the Event Dispatcher stops and no subsequent event
is processed. -/
theorem response_send_failure_fatal (s : NodeState) (peer : PeerId)
    (payload : Json) (m : ChatMessage) (rest : List Event)
    (h : deserializeChatMessage payload = some m) :
    run s (Event.requestReceived peer payload false :: rest) =
      Except.error ProcErr.responseSendPanic := by
  rw [run]
  simp [step, handleRequest, h]

/-- Claim C2, witness for the amended theorem at a concrete input. -/
theorem response_send_failure_fatal_witness :
    run (initState "QmA")
        [Event.requestReceived "QmB"
           (serializeChatMessage ⟨"QmB", "Hello I am QmB"⟩) false] =
      Except.error ProcErr.responseSendPanic :=
  response_send_failure_fatal (initState "QmA") "QmB"
    (serializeChatMessage ⟨"QmB", "Hello I am QmB"⟩)
    ⟨"QmB", "Hello I am QmB"⟩ [] rfl

/-- Claim C3: an inbound request whose payload deserializes to
`ChatMessage {peer_id: P, message: "Hello I am P"}`, arriving from peer `P`
with a deliverable reply channel, appends exactly one new log entry
`{peer_id: P, message: "Hello I am P"}` and sends exactly one response
whose text is exactly `"Welcome P!, I am <local id>"`, with the local
identity as its origin. -/
theorem request_round_trip (s : NodeState) (P : PeerId) :
    step s (Event.requestReceived P
        (serializeChatMessage ⟨P, "Hello I am " ++ P⟩) true) =
      Except.ok ({ s with log := s.log ++ [⟨P, "Hello I am " ++ P⟩] },
        [Output.responseSent P (serializeChatMessage
          ⟨s.localId, "Welcome " ++ P ++ "!, I am " ++ s.localId⟩)]) :=
  step_requestEvent s P _ _ (deserialize_serialize _)

/-- Claim C7: processing an inbound `ResponseReceived` event whose payload
is a well-formed `ChatMessage` leaves the Message Log (length and contents)
unchanged — the resulting state is exactly the old state and no output is
produced. -/
theorem response_received_log_unchanged (s : NodeState) (peer : PeerId)
    (payload : Json) (m : ChatMessage)
    (h : deserializeChatMessage payload = some m) :
    step s (Event.responseReceived peer payload) = Except.ok (s, []) := rfl

/-- Claim C7, witness at a concrete well-formed response payload. -/
theorem response_received_log_unchanged_witness :
    step (initState "QmA") (Event.responseReceived "QmB"
        (serializeChatMessage ⟨"QmB", "Welcome QmA!, I am QmB"⟩)) =
      Except.ok (initState "QmA", []) :=
  response_received_log_unchanged (initState "QmA") "QmB"
    (serializeChatMessage ⟨"QmB", "Welcome QmA!, I am QmB"⟩)
    ⟨"QmB", "Welcome QmA!, I am QmB"⟩ rfl

/-- Claim C9: the origin recorded in the appended log entry is taken solely
from the `peer_id` field of the payload — for every transport-level sender
`q` the appended entry is the deserialized payload unmodified, while the
response text names `q`; and at a concrete input where the payload names a
different peer than the sender, the logged origin differs from the actual
sending peer. -/
theorem origin_taken_from_payload :
    (∀ (s : NodeState) (q : PeerId) (payload : Json) (m : ChatMessage),
        deserializeChatMessage payload = some m →
        step s (Event.requestReceived q payload true) =
          Except.ok ({ s with log := s.log ++ [m] },
            [Output.responseSent q (serializeChatMessage
              ⟨s.localId, "Welcome " ++ q ++ "!, I am " ++ s.localId⟩)])) ∧
    (∃ (s1 : NodeState) (outs : List Output),
      step (initState "QmLocal")
          (Event.requestReceived "QmTransport"
            (serializeChatMessage ⟨"QmSpoofed", "hello"⟩) true) =
        Except.ok (s1, outs) ∧
      s1.log = [⟨"QmSpoofed", "hello"⟩] ∧
      ("QmSpoofed" : PeerId) ≠ "QmTransport" ∧
      outs = [Output.responseSent "QmTransport" (serializeChatMessage
        ⟨"QmLocal", "Welcome QmTransport!, I am QmLocal"⟩)]) := by
  constructor
  · exact fun s q payload m h => step_requestEvent s q payload m h
  · exact ⟨{ localId := "QmLocal", registry := [],
             log := [⟨"QmSpoofed", "hello"⟩] },
      [Output.responseSent "QmTransport" (serializeChatMessage
        ⟨"QmLocal", "Welcome QmTransport!, I am QmLocal"⟩)],
      rfl, rfl, by decide, rfl⟩

/-- Claim C9, witness for the universally quantified conjunct at a concrete
input. -/
theorem origin_taken_from_payload_witness :
    step (initState "QmX") (Event.requestReceived "QmY"
        (serializeChatMessage ⟨"QmZ", "hey"⟩) true) =
      Except.ok ({ localId := "QmX", registry := [],
                   log := [⟨"QmZ", "hey"⟩] },
        [Output.responseSent "QmY" (serializeChatMessage
          ⟨"QmX", "Welcome QmY!, I am QmX"⟩)]) :=
  origin_taken_from_payload.1 (initState "QmX") "QmY"
    (serializeChatMessage ⟨"QmZ", "hey"⟩) ⟨"QmZ", "hey"⟩ rfl

/-- Claim C10: processing an inbound `ResponseReceived` event never fails,
for every payload — well-formed or not: the payload is never deserialized
into a `ChatMessage`, no error can arise, and the state (Address Registry
and Message Log alike) is returned unchanged with no output. -/
theorem response_received_never_fails (s : NodeState) (peer : PeerId)
    (payload : Json) :
    step s (Event.responseReceived peer payload) = Except.ok (s, []) := rfl

/-- Claim C4, counterexample: `register` returns true for a second address
of an already-known peer — not only for the first address — and the
discovery handler then issues a second outbound request for that peer.
This refutes the clause "register returns true ... only for the first
address of a peer". -/
theorem second_address_still_requests_counterexample :
    (register [("QmPeer", "/ip4/a")] "QmPeer" "/ip4/b").2 = true ∧
    run (initState "QmLocal")
        [Event.mdnsDiscovered [("QmPeer", "/ip4/a")],
         Event.mdnsDiscovered [("QmPeer", "/ip4/b")]] =
      Except.ok
        ({ localId := "QmLocal",
           registry := [("QmPeer", "/ip4/a"), ("QmPeer", "/ip4/b")],
           log := [] },
         [Output.requestSent "QmPeer" (serializeChatMessage
            ⟨"QmLocal", "Hello I am QmLocal"⟩),
          Output.requestSent "QmPeer" (serializeChatMessage
            ⟨"QmLocal", "Hello I am QmLocal"⟩)]) :=
  ⟨rfl, rfl⟩

/-- Claim C4, amended: a `Found` event for a (peer, address) pair not yet
registered causes exactly one outbound request, constructed as
`ChatMessage {peer_id: local identity, message: "Hello I am <identity>"}`;
a repeated `Found` for the same (peer, address) pair causes no further
request; and the request is issued exactly when `register` returns true,
which happens for every new (peer, address) pair — also for a new address
of an already-known peer, not only for the first address. -/
theorem discovery_request_iff_new_pair (s : NodeState) (P : PeerId)
    (A : Multiaddr) :
    step s (Event.mdnsDiscovered [(P, A)]) =
      if (P, A) ∈ s.registry then Except.ok (s, [])
      else
        Except.ok ({ s with registry := s.registry ++ [(P, A)] },
          [Output.requestSent P (serializeChatMessage
            ⟨s.localId, "Hello I am " ++ s.localId⟩)]) := by
  by_cases h : (P, A) ∈ s.registry <;>
    simp [step, handleDiscovered, discoverOne, register, h]

/-- Claim C5: registration is idempotent.  Starting from a registry in
which the pair is absent, the first `register(peer, address)` returns true,
the immediately repeated `register(peer, address)` returns false, and
afterwards `addresses_of(peer)` contains that address exactly once. -/
theorem register_idempotent (reg : Registry) (P : PeerId) (A : Multiaddr)
    (h : (P, A) ∉ reg) :
    (register reg P A).2 = true ∧
    (register (register reg P A).1 P A).2 = false ∧
    ((addresses_of (register (register reg P A).1 P A).1 P).count A = 1) := by
  have h1 : register reg P A = (reg ++ [(P, A)], true) := by
    simp [register, h]
  have h2 : register (reg ++ [(P, A)]) P A = (reg ++ [(P, A)], false) := by
    simp [register]
  have hcount : (addresses_of reg P).count A = 0 :=
    List.count_eq_zero.2 (fun hmem => h ((mem_addresses_of reg P A).1 hmem))
  refine ⟨by rw [h1], by rw [h1, h2], ?_⟩
  rw [h1, h2]
  rw [addresses_of_append, List.count_append, hcount]
  simp [addresses_of]

/-- Claim C5, witness at a concrete registry and pair. -/
theorem register_idempotent_witness :
    (register [] "QmP" "/ip4/a").2 = true ∧
    (register (register [] "QmP" "/ip4/a").1 "QmP" "/ip4/a").2 = false ∧
    ((addresses_of (register (register [] "QmP" "/ip4/a").1 "QmP"
        "/ip4/a").1 "QmP").count "/ip4/a" = 1) :=
  register_idempotent [] "QmP" "/ip4/a" (by simp)

/-- Claim C6: an `Expired` event removes exactly the named (peer, address)
pair — after `Found(P, A1)`, `Found(P, A2)`, `Expired(P, A1)` the addresses
of `P` are exactly `[A2]` — and unregistering a pair that was never
registered is a no-op, never an error. -/
theorem expiry_removes_exactly (id P : PeerId) (A1 A2 : Multiaddr)
    (hne : A1 ≠ A2) :
    (∃ (s1 : NodeState) (outs : List Output),
      run (initState id)
          [Event.mdnsDiscovered [(P, A1)], Event.mdnsDiscovered [(P, A2)],
           Event.mdnsExpired [(P, A1)]] = Except.ok (s1, outs) ∧
      addresses_of s1.registry P = [A2]) ∧
    (∀ (reg : Registry) (peer : PeerId) (addr : Multiaddr),
      (peer, addr) ∉ reg → unregister reg peer addr = reg) := by
  constructor
  · refine ⟨{ localId := id, registry := [(P, A2)], log := [] },
      [Output.requestSent P (serializeChatMessage
        ⟨id, "Hello I am " ++ id⟩),
       Output.requestSent P (serializeChatMessage
        ⟨id, "Hello I am " ++ id⟩)], ?_, ?_⟩
    · simp [run, step, handleDiscovered, discoverOne, register,
        handleExpired, expireOne, unregister, initState, hne, Ne.symm hne]
    · simp [addresses_of]
  · intro reg peer addr h
    unfold unregister
    apply List.filter_eq_self.2
    intro a ha
    simp only [ne_eq, decide_not, Bool.not_eq_true', decide_eq_false_iff_not]
    intro heq
    exact h (heq ▸ ha)

/-- Claim C6, witness at concrete peers and addresses. -/
theorem expiry_removes_exactly_witness :
    (∃ (s1 : NodeState) (outs : List Output),
      run (initState "QmL")
          [Event.mdnsDiscovered [("QmP", "/ip4/a")],
           Event.mdnsDiscovered [("QmP", "/ip4/b")],
           Event.mdnsExpired [("QmP", "/ip4/a")]] = Except.ok (s1, outs) ∧
      addresses_of s1.registry "QmP" = ["/ip4/b"]) ∧
    (∀ (reg : Registry) (peer : PeerId) (addr : Multiaddr),
      (peer, addr) ∉ reg → unregister reg peer addr = reg) :=
  expiry_removes_exactly "QmL" "QmP" "/ip4/a" "/ip4/b" (by decide)

/-- Claim C8: the Message Log is append-only — every successful step leaves
the old log as a prefix of the new one — and order-preserving: running any
sequence of well-formed inbound requests appends exactly the carried
messages, in delivery order, so `all()` (the log) returns them in that
order. -/
theorem log_append_only_and_ordered :
    (∀ (s : NodeState) (e : Event) (s1 : NodeState) (outs : List Output),
        step s e = Except.ok (s1, outs) → s.log <+: s1.log) ∧
    (∀ (msgs : List ChatMessage) (s : NodeState), ∃ outs,
        run s (msgs.map requestEvent) =
          Except.ok ({ s with log := s.log ++ msgs }, outs)) := by
  constructor
  · intro s e s1 outs h
    cases e with
    | mdnsDiscovered peers =>
      simp only [step, Except.ok.injEq] at h
      have h1 : (handleDiscovered s peers).1 = s1 := congrArg Prod.fst h
      have hlog : (handleDiscovered s peers).1.log = s.log :=
        foldl_discoverOne_log peers (s, [])
      have hs : s1.log = s.log := by rw [← h1]; exact hlog
      rw [hs]
    | mdnsExpired peers =>
      simp only [step, Except.ok.injEq, Prod.mk.injEq] at h
      have hlog : (handleExpired s peers).log = s.log :=
        foldl_expireOne_log peers s
      have hs : s1.log = s.log := by rw [← h.1]; exact hlog
      rw [hs]
    | requestReceived q payload sendOk =>
      simp only [step, handleRequest] at h
      cases hd : deserializeChatMessage payload with
      | none => rw [hd] at h; cases h
      | some m =>
        rw [hd] at h
        cases sendOk with
        | false => simp at h
        | true =>
          simp only [if_pos, Except.ok.injEq, Prod.mk.injEq] at h
          rw [← h.1]
          exact ⟨[m], rfl⟩
    | responseReceived q payload =>
      simp only [step, Except.ok.injEq, Prod.mk.injEq] at h
      rw [← h.1]
    | other =>
      simp only [step, Except.ok.injEq, Prod.mk.injEq] at h
      rw [← h.1]
  · exact fun msgs s => run_requestEvents msgs s

/-- Claim C8, witness for the append-only conjunct at a concrete step. -/
theorem log_append_only_witness :
    (initState "QmL").log <+:
      ({ localId := "QmL", registry := [],
         log := [⟨"QmP", "hi"⟩] } : NodeState).log :=
  log_append_only_and_ordered.1 (initState "QmL")
    (Event.requestReceived "QmP" (serializeChatMessage ⟨"QmP", "hi"⟩) true)
    { localId := "QmL", registry := [], log := [⟨"QmP", "hi"⟩] }
    [Output.responseSent "QmP" (serializeChatMessage
      ⟨"QmL", "Welcome QmP!, I am QmL"⟩)]
    rfl

end Chat
